import Mathlib

/-!
Shallow embedding of the sisyphus-matroska command-synthesis engine
(`src/mkvmerge.py`, `src/mkvinfo.py`, `src/mkvextract.py`).

Pure data flow is modelled directly: Python dicts become insertion-ordered
association lists, `pathlib.Path` values become strings with an explicit
current-working-directory parameter for `.absolute()`, and fatal exits /
uncaught exceptions become `Except` errors.  The `mkvmerge -i` identify
output (external process) is an input to the model: each source carries the
track records the real code caches in `self.info.tracks`.
-/

namespace Sisyphus

/-- Scalar value stored in an options mapping, mirroring the JSON/Python
values the code actually branches on (`None`, strings, booleans). -/
inductive PyVal where
  | vNone : PyVal
  | vStr : String → PyVal
  | vBool : Bool → PyVal
deriving DecidableEq, Repr

/-- Python truthiness (`not v` / `if v:`) restricted to the modelled values. -/
def PyVal.truthy : PyVal → Bool
  | .vNone => false
  | .vStr s => !(s == "")
  | .vBool b => b

/-- Python `str()` / f-string rendering of the modelled values. -/
def PyVal.render : PyVal → String
  | .vNone => "None"
  | .vStr s => s
  | .vBool b => if b then "True" else "False"

/-- Insertion-ordered options mapping (a Python dict keyed by option name). -/
abbrev OptionsMap := List (String × PyVal)

/-- Membership test used for `key in self.options.keys()`. -/
def hasOptionKey (opts : OptionsMap) (k : String) : Bool :=
  opts.any (fun kv => kv.1 == k)

/-- Leading character test on the underlying character list (used instead
of the substring-based library functions so that terms reduce). -/
def headChar (p : String) : Option Char :=
  match p.data with
  | c :: _ => some c
  | [] => none

/-- Path.absolute(): prepend the current working directory to a relative path. -/
def pathAbsolute (cwd p : String) : String :=
  if headChar p = some '/' then p else cwd ++ "/" ++ p

/-- Splitting a character list at `/` separators. -/
def slashComponents : List Char → List Char → List String
  | [], acc => [String.mk acc.reverse]
  | c :: rest, acc =>
    if c = '/' then String.mk acc.reverse :: slashComponents rest []
    else slashComponents rest (c :: acc)

/-- Path.name: the final path component (base name) of a path string. -/
def pathName (p : String) : String :=
  ((slashComponents p.data []).filter (fun s => s ≠ "")).getLastD ""

/-- One entry of the identify (`mkvmerge -i ... -F json`) `tracks` array:
the fields the code reads are `id`, `type` and the `properties` object. -/
structure InfoTrack where
  id : Nat
  type : String
  language : Option String
  codec_id : String
deriving DecidableEq, Repr

/-- MkvSourceTrack: a declared track number plus its options dict. -/
structure MkvSourceTrack where
  track : Nat
  options : OptionsMap
deriving DecidableEq, Repr

/-- MkvSource: source file, per-source options Box, the declared-track list
`self.__tracks`, and the cached identify records `self.info.tracks`. -/
structure MkvSource where
  source_file : String
  options : OptionsMap
  tracks : List MkvSourceTrack
  info_tracks : List InfoTrack
deriving DecidableEq, Repr

/-- MkvSource.add_track appends to the internal track list. -/
def MkvSource.add_track (s : MkvSource) (t : MkvSourceTrack) : MkvSource :=
  { s with tracks := s.tracks ++ [t] }

/-- Failure modes of merge-side command generation.  `indexError` is the
uncaught IndexError raised by `self.info.tracks[track.track]` on an
out-of-range declared track number: the surrounding `except box.BoxKeyError`
handler (the fatal exit-60 path that would name source and track) cannot
catch IndexError — BoxKeyError subclasses KeyError, a sibling of
IndexError — so the failure carries neither the source nor the track.
`unknownTrackType` is the KeyError from `track_count[track_type]` on a
type outside the four structural keys, which does carry the key. -/
inductive MkvError where
  | indexError : MkvError
  | unknownTrackType : String → MkvError
deriving DecidableEq, Repr

/-- The `track_count` dict of `generate_options`, with its fixed insertion
order video, audio, subtitles, buttons. -/
structure TrackCount where
  video : List Nat
  audio : List Nat
  subtitles : List Nat
  buttons : List Nat
deriving DecidableEq, Repr

/-- Append a track number under its type key; `none` models the KeyError on
a type outside the four structural keys. -/
def TrackCount.push (tc : TrackCount) (ty : String) (n : Nat) : Option TrackCount :=
  if ty = "video" then some { tc with video := tc.video ++ [n] }
  else if ty = "audio" then some { tc with audio := tc.audio ++ [n] }
  else if ty = "subtitles" then some { tc with subtitles := tc.subtitles ++ [n] }
  else if ty = "buttons" then some { tc with buttons := tc.buttons ++ [n] }
  else none

/-- Per-track option emission: `--k` and `track:v` when the value is not
None, the bare `--k` otherwise (the `v is not None` test). -/
def trackOptionTokens (track : Nat) : OptionsMap → List String
  | [] => []
  | (k, v) :: rest =>
    (match v with
     | .vNone => ["--" ++ k]
     | v => ["--" ++ k, toString track ++ ":" ++ v.render]) ++ trackOptionTokens track rest

/-- The per-track loop of `generate_options`: fills `track_count` and
accumulates the per-track option tokens, failing on the first declared
track whose number is not an index of the identify records — with the
anonymous `indexError`, since the handler that would name source and track
never catches it. -/
def collectTracks (info : List InfoTrack) (src : String) :
    List MkvSourceTrack → TrackCount → List String → Except MkvError (TrackCount × List String)
  | [], tc, cmd => .ok (tc, cmd)
  | t :: rest, tc, cmd =>
    match info[t.track]? with
    | none => .error .indexError
    | some it =>
      match tc.push it.type t.track with
      | none => .error (.unknownTrackType it.type)
      | some tc2 => collectTracks info src rest tc2 (cmd ++ trackOptionTokens t.track t.options)

/-- One step of the `for k, v in track_count.items()` loop: skip when the
reserved `_copy-<k>-tracks` key is set, `--no-<k>` when the id list is
empty, else `--<k>-tracks` (with `k[:-1]` for subtitles/buttons) and the
comma-joined ids. -/
def typeDirective (opts : OptionsMap) (k : String) (v : List Nat) : List String :=
  if hasOptionKey opts ("_copy-" ++ k ++ "-tracks") then []
  else if v = [] then ["--no-" ++ k]
  else
    let k2 := if k = "subtitles" ∨ k = "buttons" then k.dropRight 1 else k
    ["--" ++ k2 ++ "-tracks", String.intercalate "," (v.map toString)]

/-- Per-source scalar option emission: keys starting with `_` are skipped;
a None or boolean value emits the bare flag, anything else the flag and the
raw value (the `v == None or type(v) is bool` test). -/
def scalarOptionTokens : OptionsMap → List String
  | [] => []
  | (k, v) :: rest =>
    (if headChar k = some '_' then []
     else match v with
       | .vNone => ["--" ++ k]
       | .vBool _ => ["--" ++ k]
       | .vStr s => ["--" ++ k, s]) ++ scalarOptionTokens rest

/-- MkvSource.generate_options: per-track options and the grouped file path
are built first (`command`), the type directives and scalar options second
(`pc`), and the result is `pc + command`. -/
def MkvSource.generate_options (cwd : String) (s : MkvSource) : Except MkvError (List String) := do
  let r ← collectTracks s.info_tracks s.source_file s.tracks ⟨[], [], [], []⟩ []
  let command := r.2 ++ ["(", pathAbsolute cwd s.source_file, ")"]
  let pc := typeDirective s.options "video" r.1.video
    ++ typeDirective s.options "audio" r.1.audio
    ++ typeDirective s.options "subtitles" r.1.subtitles
    ++ typeDirective s.options "buttons" r.1.buttons
    ++ scalarOptionTokens s.options
  return pc ++ command

/-- MkvAttachment: resolved display name, file and optional MIME type. -/
structure MkvAttachment where
  filename : String
  name : String
  mimetype : Option String
deriving DecidableEq, Repr

/-- MkvAttachment constructor: `name if name else self.filename.name`
(Python truthiness, so an empty name also falls back to the base name);
the mimetype argument is stored as given. -/
def MkvAttachment.make (filename : String) (name : Option String)
    (mimetype : Option String) : MkvAttachment :=
  { filename
    name := match name with
      | some n => if n = "" then pathName filename else n
      | none => pathName filename
    mimetype := mimetype }

/-- MkvAttachment.generate_options: name and absolute file path, plus the
MIME-type pair only when `self.mimetype` is truthy. -/
def MkvAttachment.generate_options (cwd : String) (a : MkvAttachment) : List String :=
  ["--attachment-name", a.name, "--attach-file", pathAbsolute cwd a.filename]
    ++ (match a.mimetype with
        | some m => if m = "" then [] else ["--attachment-mime-type", m]
        | none => [])

/-- Global option emission in `MkvMerge.generate_command`: the bare flag
when the value is falsy (`if not v`), the flag and rendered value otherwise. -/
def globalOptionTokens : OptionsMap → List String
  | [] => []
  | (k, v) :: rest =>
    (if v.truthy then ["--" ++ k, v.render] else ["--" ++ k]) ++ globalOptionTokens rest

/-- MkvMerge: sources, attachments, global options, output file, binary
path and the track-order override list (empty when never set). -/
structure MkvMerge where
  sources : List MkvSource
  attachments : List MkvAttachment
  track_order_override : List String
  output : String
  mkvmerge_path : String
  global_options : OptionsMap
deriving DecidableEq, Repr

/-- MkvMerge.add_source appends to the source list. -/
def MkvMerge.add_source (m : MkvMerge) (s : MkvSource) : MkvMerge :=
  { m with sources := m.sources ++ [s] }

/-- MkvMerge.add_attachment appends to the attachment list. -/
def MkvMerge.add_attachment (m : MkvMerge) (a : MkvAttachment) : MkvMerge :=
  { m with attachments := m.attachments ++ [a] }

/-- The derivation loop of the `track_order` property:
`for i in range(0, len(sources)): for j in sources[i].tracks: "i:j.track"`. -/
def derivedTrackOrder (sources : List MkvSource) : List String :=
  ((List.range sources.length).map (fun i =>
    ((sources[i]?.map MkvSource.tracks).getD []).map
      (fun j => toString i ++ ":" ++ toString j.track))).flatten

/-- MkvMerge.track_order: the override when it is truthy (non-empty),
otherwise the derived order. -/
def MkvMerge.track_order (m : MkvMerge) : List String :=
  if m.track_order_override ≠ [] then m.track_order_override
  else derivedTrackOrder m.sources

/-- Sequencing of fallible per-element generation, mirroring a Python loop
that dies at the first failing element. -/
def mapExcept (f : α → Except ε β) : List α → Except ε (List β)
  | [] => .ok []
  | a :: l => do
    let b ← f a
    let bs ← mapExcept f l
    return b :: bs

/-- MkvMerge.generate_command (list form): executable, `--output` and the
absolute output path, global options, the sources' fragments in order, the
attachments' fragments in order, and finally `--track-order` with the
comma-joined track order. -/
def MkvMerge.generate_command (cwd : String) (m : MkvMerge) : Except MkvError (List String) := do
  let srcFrags ← mapExcept (MkvSource.generate_options cwd) m.sources
  return [m.mkvmerge_path]
    ++ ["--output", pathAbsolute cwd m.output]
    ++ globalOptionTokens m.global_options
    ++ srcFrags.flatten
    ++ (m.attachments.map (MkvAttachment.generate_options cwd)).flatten
    ++ ["--track-order", String.intercalate "," m.track_order]

/-- One `sources` entry of the merge configuration.  The real constructor
runs the external identify command; its result is the `info` input here. -/
structure ConfigSource where
  filename : String
  options : OptionsMap
  info : List InfoTrack
deriving DecidableEq, Repr

/-- One `tracks` entry of the merge configuration. -/
structure ConfigTrack where
  source : Nat
  track : Nat
  options : OptionsMap
deriving DecidableEq, Repr

/-- One `attachments` entry of the merge configuration. -/
structure ConfigAttachment where
  filename : String
  name : Option String
  mimetype : Option String
deriving DecidableEq, Repr

/-- A schema-validated merge configuration object.  Directory-based
attachment discovery (`attachment_directories`) is filesystem I/O outside
the model and is omitted; it only extends the attachment list. -/
structure MergeConfig where
  sources : List ConfigSource
  tracks : List ConfigTrack
  output_file : String
  options : OptionsMap
  attachments : List ConfigAttachment
deriving DecidableEq, Repr

/-- The `for track in json_data.tracks: sources[track.source].add_track(...)`
loop; `none` models the IndexError on a source index out of range. -/
def addConfigTracks : List MkvSource → List ConfigTrack → Option (List MkvSource)
  | srcs, [] => some srcs
  | srcs, t :: rest =>
    match srcs[t.source]? with
    | none => none
    | some s => addConfigTracks (srcs.set t.source (s.add_track ⟨t.track, t.options⟩)) rest

/-- MkvMerge.load_from_object: rebuild sources from the configuration, add
each `tracks` entry to its source, set output, global options and
attachments, and set the track-order override to `"source:track"` per
`tracks` entry in array order. -/
def MkvMerge.load_from_object (m : MkvMerge) (cfg : MergeConfig) : Option MkvMerge := do
  let initSources := cfg.sources.map (fun cs =>
    { source_file := cs.filename, options := cs.options, tracks := [],
      info_tracks := cs.info : MkvSource })
  let sources ← addConfigTracks initSources cfg.tracks
  return { m with
    sources := sources
    output := cfg.output_file
    global_options := cfg.options
    attachments := cfg.attachments.map (fun a => MkvAttachment.make a.filename a.name a.mimetype)
    track_order_override := cfg.tracks.map (fun t => toString t.source ++ ":" ++ toString t.track) }

/-- MkvInfoTrack: normalized track record built by `MkvInfo.process_info`
from one identify entry (id, type, optional language, codec). -/
structure MkvInfoTrack where
  track_id : Nat
  track_type : String
  track_lang : Option String
  track_codec : String
deriving DecidableEq, Repr

/-- MkvInfo.process_info: one MkvInfoTrack per identify entry, in order. -/
def process_info (info : List InfoTrack) : List MkvInfoTrack :=
  info.map (fun i =>
    { track_id := i.id, track_type := i.type, track_lang := i.language,
      track_codec := i.codec_id })

/-- Python truthiness of an optional string argument (`if track_type:`). -/
def optStrTruthy : Option String → Bool
  | some s => !(s == "")
  | none => false

/-- MkvInfo.get_tracks: all tracks when both filters are falsy; otherwise
filter by type (over the full list) and then by language. -/
def get_tracks (tracks : List MkvInfoTrack) (track_type language : Option String) :
    List MkvInfoTrack :=
  if ¬ optStrTruthy track_type ∧ ¬ optStrTruthy language then tracks
  else
    let ts := if optStrTruthy track_type then
        tracks.filter (fun i => i.track_type = track_type.getD "") else tracks
    if optStrTruthy language then ts.filter (fun i => i.track_lang = language) else ts

/-- Failure modes of extract-side resolution.  In the Python source all
three are list-index failures (IndexError); the first two name the spec's
taxonomy for the filtered branch of `process_track_mode` (empty filtered
set, and non-empty filtered set shorter than the requested ordinal), the
third is the unfiltered `self.mkvinfo.tracks[d.id]` branch. -/
inductive ExtractError where
  | noMatchingTrack : ExtractError
  | ambiguousSelector : ExtractError
  | rawIndexOutOfRange : Nat → ExtractError
deriving DecidableEq, Repr

/-- One `tracks`-mode entry of the extract configuration: destination
filename, the `id` field, and the optional `track_type`/`language` keys. -/
structure TrackEntry where
  id : Nat
  filename : String
  track_type : Option String
  language : Option String
deriving DecidableEq, Repr

/-- Selector resolution inside `process_track_mode`: when a `track_type` or
`language` key is present the entry's `id` indexes the filtered track list,
otherwise it indexes the full track list; the resolved value is that
record's `track_id`. -/
def resolveTrackEntry (tracks : List MkvInfoTrack) (e : TrackEntry) :
    Except ExtractError Nat :=
  if e.track_type.isSome ∨ e.language.isSome then
    let filtered := get_tracks tracks e.track_type e.language
    match filtered[e.id]? with
    | some t => .ok t.track_id
    | none => .error (if filtered = [] then .noMatchingTrack else .ambiguousSelector)
  else
    match tracks[e.id]? with
    | some t => .ok t.track_id
    | none => .error (.rawIndexOutOfRange e.id)

/-- Mkvextract.process_track_mode: the `tracks` label followed by one
`resolvedId:filename` token per entry. -/
def process_track_mode (tracks : List MkvInfoTrack) (entries : List TrackEntry) :
    Except ExtractError (List String) := do
  let toks ← mapExcept (fun e => do
    let tid ← resolveTrackEntry tracks e
    return toString tid ++ ":" ++ e.filename) entries
  return "tracks" :: toks

/-- One extraction mode of the validated extract configuration, tagged by
its configuration key (`tracks`, `attachments`, `timestamps`, `cues`,
`chapters`, `tags`). -/
inductive ExtractMode where
  | tracks : List TrackEntry → ExtractMode
  | attachments : List (Nat × String) → ExtractMode
  | timestamps : List (Nat × String) → ExtractMode
  | cues : List (Nat × String) → ExtractMode
  | chapters : String → ExtractMode
  | tags : String → ExtractMode
deriving DecidableEq, Repr

/-- Configuration key under which a mode is stored in the data mapping. -/
def ExtractMode.key : ExtractMode → String
  | .tracks _ => "tracks"
  | .attachments _ => "attachments"
  | .timestamps _ => "timestamps"
  | .cues _ => "cues"
  | .chapters _ => "chapters"
  | .tags _ => "tags"

/-- Tokens emitted for one mode by `Mkvextract.generate_command`: the
`tracks` mode goes through `process_track_mode`; `attachments`/`cues` emit
their key then `id:filename` per entry; `timestamps` does the same but
under the `timestamps_v2` label; `chapters`/`tags` emit their key then the
single destination filename. -/
def modeTokens (infoTracks : List MkvInfoTrack) : ExtractMode → Except ExtractError (List String)
  | .tracks es => process_track_mode infoTracks es
  | .attachments es => .ok ("attachments" :: es.map (fun e => toString e.1 ++ ":" ++ e.2))
  | .timestamps es => .ok ("timestamps_v2" :: es.map (fun e => toString e.1 ++ ":" ++ e.2))
  | .cues es => .ok ("cues" :: es.map (fun e => toString e.1 ++ ":" ++ e.2))
  | .chapters f => .ok ["chapters", f]
  | .tags f => .ok ["tags", f]

/-- The loaded extract data: the `source` key and the remaining mode
entries in the mapping's iteration (insertion) order. -/
structure ExtractData where
  source : String
  modes : List ExtractMode
deriving DecidableEq, Repr

/-- Mkvextract: binary path, optionally loaded data, and the MkvInfo track
records of the data's source (produced by the external identify call). -/
structure Mkvextract where
  mkvextract_path : String
  data : Option ExtractData
  infoTracks : List MkvInfoTrack
deriving DecidableEq, Repr

/-- Mkvextract.generate_command: `None` when no data is loaded; otherwise
the binary path and the source file followed by each mode's tokens in the
data's iteration order. -/
def Mkvextract.generate_command (x : Mkvextract) :
    Option (Except ExtractError (List String)) :=
  match x.data with
  | none => none
  | some d => some (do
      let ms ← mapExcept (modeTokens x.infoTracks) d.modes
      return x.mkvextract_path :: d.source :: ms.flatten)

/-! Claim-side definitions, transcribed from the specification's words to
be compared against the code-derived functions above. -/

/-- Identify type recorded for a declared track number: positional lookup
into the cached identify records. -/
def typeAt (info : List InfoTrack) (n : Nat) : Option String :=
  (info[n]?).map InfoTrack.type

/-- Track numbers of the declared tracks whose identify type is `k`, in
declaration order. -/
def idsOf (info : List InfoTrack) (k : String) (ts : List MkvSourceTrack) : List Nat :=
  (ts.filter (fun t => typeAt info t.track = some k)).map MkvSourceTrack.track

/-- Declared track ids of one structural type, in declaration order (the
claims' notion of the per-type partition of the declared tracks). -/
def MkvSource.declaredIdsOfType (s : MkvSource) (k : String) : List Nat :=
  idsOf s.info_tracks k s.tracks

/-- Directive name for a structural type per the claims: `subtitles` and
`buttons` have the trailing plural stripped. -/
def claimDirectiveName : String → String
  | "subtitles" => "subtitle"
  | "buttons" => "button"
  | k => k

/-- Modelled from the spec: the per-type directive block the claims
describe — nothing when the reserved per-type keep-all key is present,
`--no-<type>` when no track of the type was declared, else the singularized
inclusion directive with the comma-joined declared ids. -/
def claimTypeDirective (s : MkvSource) (k : String) : List String :=
  if hasOptionKey s.options ("_copy-" ++ k ++ "-tracks") then []
  else if s.declaredIdsOfType k = [] then ["--no-" ++ k]
  else ["--" ++ claimDirectiveName k ++ "-tracks",
        String.intercalate "," ((s.declaredIdsOfType k).map toString)]

/-- Concatenation of the per-track option tokens of a declared-track list. -/
def perTrackTokens : List MkvSourceTrack → List String
  | [] => []
  | t :: rest => trackOptionTokens t.track t.options ++ perTrackTokens rest

/-! Characterization of the per-track loop and of `generate_options`. -/

lemma idsOf_cons (info : List InfoTrack) (k : String) (t : MkvSourceTrack)
    (rest : List MkvSourceTrack) :
    idsOf info k (t :: rest) =
      (if typeAt info t.track = some k then [t.track] else []) ++ idsOf info k rest := by
  by_cases h : typeAt info t.track = some k <;> simp [idsOf, h]

lemma dropRight_subtitles : ("subtitles".dropRight 1) = "subtitle" := rfl

lemma dropRight_buttons : ("buttons".dropRight 1) = "button" := rfl

lemma collectTracks_ok (info : List InfoTrack) (src : String) :
    ∀ (ts : List MkvSourceTrack) (tc : TrackCount) (cmd : List String)
      (tc' : TrackCount) (cmd' : List String),
      collectTracks info src ts tc cmd = .ok (tc', cmd') →
      tc'.video = tc.video ++ idsOf info "video" ts ∧
      tc'.audio = tc.audio ++ idsOf info "audio" ts ∧
      tc'.subtitles = tc.subtitles ++ idsOf info "subtitles" ts ∧
      tc'.buttons = tc.buttons ++ idsOf info "buttons" ts ∧
      cmd' = cmd ++ perTrackTokens ts := by
  intro ts
  induction ts with
  | nil =>
    intro tc cmd tc' cmd' h
    simp only [collectTracks, Except.ok.injEq, Prod.mk.injEq] at h
    simp [← h.1, ← h.2, idsOf, perTrackTokens]
  | cons t rest ih =>
    intro tc cmd tc' cmd' h
    cases h1 : info[t.track]? with
    | none =>
      simp only [collectTracks, h1] at h
      exact Except.noConfusion h
    | some it =>
      have htyp2 : typeAt info t.track = some it.type := by simp [typeAt, h1]
      cases h2 : TrackCount.push tc it.type t.track with
      | none =>
        simp only [collectTracks, h1, h2] at h
        exact Except.noConfusion h
      | some tc2 =>
        simp only [collectTracks, h1, h2] at h
        obtain ⟨hv, ha, hs, hb, hcmd⟩ :=
          ih tc2 (cmd ++ trackOptionTokens t.track t.options) tc' cmd' h
        have hper : perTrackTokens (t :: rest) =
            trackOptionTokens t.track t.options ++ perTrackTokens rest := rfl
        simp only [TrackCount.push] at h2
        split_ifs at h2 with e1 e2 e3 e4
        · simp only [Option.some.injEq] at h2
          subst h2
          refine ⟨?_, ?_, ?_, ?_, ?_⟩ <;>
            simp [hv, ha, hs, hb, hcmd, hper, idsOf_cons, htyp2, e1, List.append_assoc]
        · simp only [Option.some.injEq] at h2
          subst h2
          refine ⟨?_, ?_, ?_, ?_, ?_⟩ <;>
            simp [hv, ha, hs, hb, hcmd, hper, idsOf_cons, htyp2, e1, e2, List.append_assoc]
        · simp only [Option.some.injEq] at h2
          subst h2
          refine ⟨?_, ?_, ?_, ?_, ?_⟩ <;>
            simp [hv, ha, hs, hb, hcmd, hper, idsOf_cons, htyp2, e1, e2, e3, List.append_assoc]
        · simp only [Option.some.injEq] at h2
          subst h2
          refine ⟨?_, ?_, ?_, ?_, ?_⟩ <;>
            simp [hv, ha, hs, hb, hcmd, hper, idsOf_cons, htyp2, e1, e2, e3, e4,
              List.append_assoc]

/-- Full shape of a successful `generate_options` result: the four type
directive blocks in dict order, the scalar per-source options, the declared
tracks' option tokens, and the grouped absolute source path. -/
lemma generate_options_ok_decomp (cwd : String) (s : MkvSource) (out : List String)
    (h : s.generate_options cwd = Except.ok out) :
    out = claimTypeDirective s "video" ++ claimTypeDirective s "audio" ++
      claimTypeDirective s "subtitles" ++ claimTypeDirective s "buttons" ++
      (scalarOptionTokens s.options ++ perTrackTokens s.tracks ++
        ["(", pathAbsolute cwd s.source_file, ")"]) := by
  cases hc : collectTracks s.info_tracks s.source_file s.tracks ⟨[], [], [], []⟩ [] with
  | error e => simp [MkvSource.generate_options, hc] at h
  | ok r =>
    obtain ⟨hv, ha, hs, hb, hcmd⟩ := collectTracks_ok _ _ _ _ _ _ _ hc
    simp only [List.nil_append] at hv ha hs hb hcmd
    simp only [MkvSource.generate_options, hc, Except.bind, Except.pure,
      Except.ok.injEq, bind, pure] at h
    subst h
    have dv : typeDirective s.options "video" r.1.video = claimTypeDirective s "video" := by
      rw [hv]; simp [typeDirective, claimTypeDirective, claimDirectiveName,
        MkvSource.declaredIdsOfType]
    have da : typeDirective s.options "audio" r.1.audio = claimTypeDirective s "audio" := by
      rw [ha]; simp [typeDirective, claimTypeDirective, claimDirectiveName,
        MkvSource.declaredIdsOfType]
    have ds : typeDirective s.options "subtitles" r.1.subtitles =
        claimTypeDirective s "subtitles" := by
      rw [hs]; simp [typeDirective, claimTypeDirective, claimDirectiveName,
        MkvSource.declaredIdsOfType, dropRight_subtitles]
    have db : typeDirective s.options "buttons" r.1.buttons =
        claimTypeDirective s "buttons" := by
      rw [hb]; simp [typeDirective, claimTypeDirective, claimDirectiveName,
        MkvSource.declaredIdsOfType, dropRight_buttons]
    rw [dv, da, ds, db, hcmd]
    simp [List.append_assoc]

/-- Claim C1: a successful `generate_options` run emits, for each of the
four structural track types in order, exactly one directive block: nothing
when the reserved `_copy-<type>-tracks` keep-all key is present, the token
`--no-<type>` when no declared track has that type, and otherwise the
inclusion directive (`--video-tracks`, `--audio-tracks`, `--subtitle-tracks`,
`--button-tracks`, the last two with the trailing plural stripped) followed
by the comma-joined declared track ids of that type in declaration order. -/
theorem generate_options_type_directives (cwd : String) (s : MkvSource) (out : List String)
    (h : s.generate_options cwd = Except.ok out) :
    (∃ rest, out =
      claimTypeDirective s "video" ++ claimTypeDirective s "audio" ++
      claimTypeDirective s "subtitles" ++ claimTypeDirective s "buttons" ++ rest) ∧
    (∀ k, hasOptionKey s.options ("_copy-" ++ k ++ "-tracks") = true →
      claimTypeDirective s k = []) ∧
    (∀ k, hasOptionKey s.options ("_copy-" ++ k ++ "-tracks") = false →
      s.declaredIdsOfType k = [] → claimTypeDirective s k = ["--no-" ++ k]) ∧
    (∀ k, hasOptionKey s.options ("_copy-" ++ k ++ "-tracks") = false →
      s.declaredIdsOfType k ≠ [] →
      claimTypeDirective s k = ["--" ++ claimDirectiveName k ++ "-tracks",
        String.intercalate "," ((s.declaredIdsOfType k).map toString)]) ∧
    claimDirectiveName "subtitles" = "subtitle" ∧ claimDirectiveName "buttons" = "button" ∧
    claimDirectiveName "video" = "video" ∧ claimDirectiveName "audio" = "audio" := by
  refine ⟨⟨_, generate_options_ok_decomp cwd s out h⟩, ?_, ?_, ?_, rfl, rfl, rfl, rfl⟩
  · intro k hk
    simp [claimTypeDirective, hk]
  · intro k hk hids
    simp [claimTypeDirective, hk, hids]
  · intro k hk hids
    simp [claimTypeDirective, hk, hids]

/-- Source used to instantiate claim C1: one video track and one subtitle
track declared, the audio keep-all override set, no button tracks. -/
def wSourceC1 : MkvSource :=
  { source_file := "movie.mkv"
    options := [("_copy-audio-tracks", PyVal.vBool true)]
    tracks := [⟨0, []⟩, ⟨2, []⟩]
    info_tracks := [⟨0, "video", none, "V_MPEG4"⟩, ⟨1, "audio", some "eng", "A_AAC"⟩,
                    ⟨2, "subtitles", some "eng", "S_TEXT"⟩] }

/-- Witness for claim C1 at a concrete source: generation succeeds and the
directive blocks are as claimed (video included, audio skipped by the
keep-all key, subtitles included singularized, buttons excluded). -/
theorem generate_options_type_directives_witness :
    (∃ rest, ["--video-tracks", "0", "--subtitle-tracks", "2", "--no-buttons",
        "(", "/cwd/movie.mkv", ")"] =
      claimTypeDirective wSourceC1 "video" ++ claimTypeDirective wSourceC1 "audio" ++
      claimTypeDirective wSourceC1 "subtitles" ++ claimTypeDirective wSourceC1 "buttons" ++
        rest) ∧
    (∀ k, hasOptionKey wSourceC1.options ("_copy-" ++ k ++ "-tracks") = true →
      claimTypeDirective wSourceC1 k = []) ∧
    (∀ k, hasOptionKey wSourceC1.options ("_copy-" ++ k ++ "-tracks") = false →
      wSourceC1.declaredIdsOfType k = [] → claimTypeDirective wSourceC1 k = ["--no-" ++ k]) ∧
    (∀ k, hasOptionKey wSourceC1.options ("_copy-" ++ k ++ "-tracks") = false →
      wSourceC1.declaredIdsOfType k ≠ [] →
      claimTypeDirective wSourceC1 k = ["--" ++ claimDirectiveName k ++ "-tracks",
        String.intercalate "," ((wSourceC1.declaredIdsOfType k).map toString)]) ∧
    claimDirectiveName "subtitles" = "subtitle" ∧ claimDirectiveName "buttons" = "button" ∧
    claimDirectiveName "video" = "video" ∧ claimDirectiveName "audio" = "audio" :=
  generate_options_type_directives "/cwd" wSourceC1
    ["--video-tracks", "0", "--subtitle-tracks", "2", "--no-buttons",
     "(", "/cwd/movie.mkv", ")"] (by rfl)

/-- Source used to refute claim C2: the same track id 0 declared twice. -/
def dupSource : MkvSource :=
  { source_file := "a.mkv"
    options := []
    tracks := [⟨0, []⟩, ⟨0, []⟩]
    info_tracks := [⟨0, "video", none, "V"⟩] }

/-- Counterexample to claim C2 as stated: declaring track id 0 twice makes
the emitted inclusion value `0,0`, which does contain a duplicate id — the
declared tracks are kept in an append-only list with no last-write-wins
merge, so nothing deduplicates the ids. -/
theorem inclusion_token_duplicate_counterexample :
    dupSource.generate_options "/cwd" =
      Except.ok ["--video-tracks", "0,0", "--no-audio", "--no-subtitles", "--no-buttons",
        "(", "/cwd/a.mkv", ")"] ∧
    dupSource.declaredIdsOfType "video" = [0, 0] ∧
    "0,0" = String.intercalate "," ([0, 0].map toString) ∧
    ¬ ([0, 0] : List Nat).Nodup := by
  refine ⟨rfl, rfl, rfl, by decide⟩

/-- Claim C2 as amended: the inclusion token for a structural type with at
least one declared track appears in the output and lists the declared track
ids of that type comma-joined in declaration order, one occurrence per
declaration (so an id declared twice appears twice). -/
theorem inclusion_token_lists_declared_ids (cwd : String) (s : MkvSource) (out : List String)
    (k : String) (hk : k = "video" ∨ k = "audio" ∨ k = "subtitles" ∨ k = "buttons")
    (h : s.generate_options cwd = Except.ok out)
    (hcopy : hasOptionKey s.options ("_copy-" ++ k ++ "-tracks") = false)
    (hne : s.declaredIdsOfType k ≠ []) :
    ∃ l r, out = l ++ ["--" ++ claimDirectiveName k ++ "-tracks",
      String.intercalate "," ((s.declaredIdsOfType k).map toString)] ++ r := by
  have hd := generate_options_ok_decomp cwd s out h
  have htok : claimTypeDirective s k = ["--" ++ claimDirectiveName k ++ "-tracks",
      String.intercalate "," ((s.declaredIdsOfType k).map toString)] := by
    simp [claimTypeDirective, hcopy, hne]
  rcases hk with e | e | e | e <;> subst e
  · exact ⟨[], claimTypeDirective s "audio" ++ claimTypeDirective s "subtitles" ++
      claimTypeDirective s "buttons" ++ (scalarOptionTokens s.options ++
        perTrackTokens s.tracks ++ ["(", pathAbsolute cwd s.source_file, ")"]),
      by rw [hd, ← htok]; try simp [List.append_assoc]⟩
  · exact ⟨claimTypeDirective s "video", claimTypeDirective s "subtitles" ++
      claimTypeDirective s "buttons" ++ (scalarOptionTokens s.options ++
        perTrackTokens s.tracks ++ ["(", pathAbsolute cwd s.source_file, ")"]),
      by rw [hd, ← htok]; try simp [List.append_assoc]⟩
  · exact ⟨claimTypeDirective s "video" ++ claimTypeDirective s "audio",
      claimTypeDirective s "buttons" ++ (scalarOptionTokens s.options ++
        perTrackTokens s.tracks ++ ["(", pathAbsolute cwd s.source_file, ")"]),
      by rw [hd, ← htok]; try simp [List.append_assoc]⟩
  · exact ⟨claimTypeDirective s "video" ++ claimTypeDirective s "audio" ++
      claimTypeDirective s "subtitles", scalarOptionTokens s.options ++
        perTrackTokens s.tracks ++ ["(", pathAbsolute cwd s.source_file, ")"],
      by rw [hd, ← htok]; try simp [List.append_assoc]⟩

/-- Witness for the amended claim C2, at the duplicated-declaration source:
the video inclusion value is the declaration-ordered join `0,0`. -/
theorem inclusion_token_lists_declared_ids_witness :
    ∃ l r, ["--video-tracks", "0,0", "--no-audio", "--no-subtitles", "--no-buttons",
        "(", "/cwd/a.mkv", ")"] =
      l ++ ["--" ++ claimDirectiveName "video" ++ "-tracks",
        String.intercalate "," ((dupSource.declaredIdsOfType "video").map toString)] ++ r :=
  inclusion_token_lists_declared_ids "/cwd" dupSource
    ["--video-tracks", "0,0", "--no-audio", "--no-subtitles", "--no-buttons",
     "(", "/cwd/a.mkv", ")"] "video" (Or.inl rfl) (by rfl) (by rfl) (by decide)

/-- Modelled from the spec: the derived track order starting at source
index `i` — the concatenation, in source-declaration order, of each
source's declared tracks in declaration order, rendered `index:track`. -/
def claimDerivedOrderFrom (i : Nat) : List MkvSource → List String
  | [] => []
  | s :: rest => s.tracks.map (fun t => toString i ++ ":" ++ toString t.track)
      ++ claimDerivedOrderFrom (i + 1) rest

lemma claimDerivedOrderFrom_eq (l : List MkvSource) :
    ∀ i : Nat, claimDerivedOrderFrom i l =
      ((List.range l.length).map (fun j =>
        (((l[j]?).map MkvSource.tracks).getD []).map
          (fun t => toString (i + j) ++ ":" ++ toString t.track))).flatten := by
  induction l with
  | nil => intro i; simp [claimDerivedOrderFrom]
  | cons s rest ih =>
    intro i
    rw [claimDerivedOrderFrom, ih (i + 1)]
    simp only [List.length_cons, List.range_succ_eq_map, List.map_cons, List.map_map,
      List.flatten_cons]
    congr 1
    · simp
    · congr 1
      refine List.map_congr_left fun j hj => ?_
      simp [Function.comp, List.getElem?_cons_succ, Nat.add_comm, Nat.add_left_comm,
        Nat.add_assoc]

lemma derivedTrackOrder_eq_claim (l : List MkvSource) :
    derivedTrackOrder l = claimDerivedOrderFrom 0 l := by
  rw [claimDerivedOrderFrom_eq]
  simp [derivedTrackOrder]

/-- Source A of the claim C3 scenario, declaring tracks 0 and 2. -/
def srcA : MkvSource :=
  { source_file := "test1.mkv", options := [],
    tracks := [⟨0, []⟩, ⟨2, []⟩],
    info_tracks := [⟨0, "video", none, "V"⟩, ⟨1, "audio", some "eng", "A"⟩,
                    ⟨2, "audio", some "jpn", "A"⟩] }

/-- Source B of the claim C3 scenario, declaring tracks 1 and 3. -/
def srcB : MkvSource :=
  { source_file := "test2.mkv", options := [],
    tracks := [⟨1, []⟩, ⟨3, []⟩],
    info_tracks := [⟨0, "video", none, "V"⟩, ⟨1, "audio", some "eng", "A"⟩,
                    ⟨2, "subtitles", some "eng", "S"⟩, ⟨3, "audio", some "jpn", "A"⟩] }

/-- Merge job over sources A and B with no track-order override. -/
def mergeAB : MkvMerge :=
  { sources := [srcA, srcB], attachments := [], track_order_override := [],
    output := "out.mkv", mkvmerge_path := "/usr/bin/mkvmerge", global_options := [] }

/-- The same merge job with the override `["0:0","1:1","0:2","1:3"]` set. -/
def mergeABOverride : MkvMerge :=
  { mergeAB with track_order_override := ["0:0", "1:1", "0:2", "1:3"] }

/-- Claim C3: a non-empty override is returned verbatim by `track_order`;
without one the derived per-source declaration order is returned; for the
two-source scenario the default order is `0:0,0:2,1:1,1:3` and with the
override set the generated command ends with `--track-order` and exactly
`0:0,1:1,0:2,1:3`. -/
theorem track_order_spec :
    (∀ m : MkvMerge, m.track_order_override ≠ [] → m.track_order = m.track_order_override) ∧
    (∀ m : MkvMerge, m.track_order_override = [] →
      m.track_order = claimDerivedOrderFrom 0 m.sources) ∧
    mergeAB.track_order = ["0:0", "0:2", "1:1", "1:3"] ∧
    mergeABOverride.generate_command "/cwd" = Except.ok
      (["/usr/bin/mkvmerge", "--output", "/cwd/out.mkv", "--video-tracks", "0",
        "--audio-tracks", "2", "--no-subtitles", "--no-buttons", "(", "/cwd/test1.mkv", ")",
        "--no-video", "--audio-tracks", "1,3", "--no-subtitles", "--no-buttons",
        "(", "/cwd/test2.mkv", ")"] ++ ["--track-order", "0:0,1:1,0:2,1:3"]) := by
  refine ⟨?_, ?_, by rfl, by rfl⟩
  · intro m hm
    simp [MkvMerge.track_order, hm]
  · intro m hm
    rw [MkvMerge.track_order, ← derivedTrackOrder_eq_claim]
    simp [hm]

/-- Witness for claim C3: the override job returns the override verbatim,
and the overrideless job returns the derived order. -/
theorem track_order_spec_witness :
    mergeABOverride.track_order = ["0:0", "1:1", "0:2", "1:3"] ∧
    mergeAB.track_order = claimDerivedOrderFrom 0 mergeAB.sources :=
  ⟨track_order_spec.1 mergeABOverride (by decide),
   track_order_spec.2.1 mergeAB rfl⟩

/-- Claim C4: attachment option emission is exactly the name pair and the
absolute-path pair, the MIME pair appearing only for a truthy supplied
mime type; an absent name falls back to the file's base name, and the
`font.ttf` scenario emits exactly the four tokens. -/
theorem attachment_options_spec :
    (∀ (cwd f : String) (n m : Option String),
      (MkvAttachment.make f n m).generate_options cwd =
        ["--attachment-name", (MkvAttachment.make f n m).name,
         "--attach-file", pathAbsolute cwd f] ++
        (match m with
         | some s => if s = "" then [] else ["--attachment-mime-type", s]
         | none => [])) ∧
    (∀ (f : String) (m : Option String), (MkvAttachment.make f none m).name = pathName f) ∧
    (MkvAttachment.make "font.ttf" none none).generate_options "/cwd" =
      ["--attachment-name", "font.ttf", "--attach-file", "/cwd/font.ttf"] := by
  refine ⟨?_, ?_, by rfl⟩
  · intro cwd f n m
    cases m <;> rfl
  · intro f m
    rfl

/-- Counterexample to claim C5 as stated: a global option whose value is
the (present) empty string emits the single bare flag, not the claimed
flag/value pair — global options test Python truthiness (`not v`) while
track options test only for None. -/
theorem option_shape_counterexample :
    globalOptionTokens [("title", PyVal.vStr "")] = ["--title"] ∧
    ["--title"] ≠ ["--title", ""] := by
  refine ⟨rfl, by decide⟩

/-- Claim C5 as amended: a track option emits the pair
`--name`, `track:value` exactly when its value is not None and the bare
flag otherwise; a global option emits the pair `--name`, `value` exactly
when its value is truthy and the bare flag otherwise; both emitters are
concatenations of these per-option chunks, so no other shapes occur. -/
theorem option_emission_shapes :
    (∀ (tr : Nat) (k : String) (v : PyVal), trackOptionTokens tr [(k, v)] =
      if v = PyVal.vNone then ["--" ++ k]
      else ["--" ++ k, toString tr ++ ":" ++ v.render]) ∧
    (∀ (k : String) (v : PyVal), globalOptionTokens [(k, v)] =
      if v.truthy then ["--" ++ k, v.render] else ["--" ++ k]) ∧
    (∀ (tr : Nat) (opts : OptionsMap),
      trackOptionTokens tr opts = (opts.map (fun kv => trackOptionTokens tr [kv])).flatten) ∧
    (∀ opts : OptionsMap,
      globalOptionTokens opts = (opts.map (fun kv => globalOptionTokens [kv])).flatten) := by
  refine ⟨?_, ?_, ?_, ?_⟩
  · intro tr k v
    cases v <;> simp [trackOptionTokens]
  · intro k v
    cases v with
    | vNone => simp [globalOptionTokens, PyVal.truthy]
    | vStr s =>
      by_cases hs : s = "" <;> simp [globalOptionTokens, PyVal.truthy, PyVal.render, hs]
    | vBool b =>
      cases b <;> simp [globalOptionTokens, PyVal.truthy, PyVal.render]
  · intro tr opts
    induction opts with
    | nil => rfl
    | cons kv rest ih => simp [trackOptionTokens, ih]
  · intro opts
    induction opts with
    | nil => rfl
    | cons kv rest ih => simp [globalOptionTokens, ih]

/-- Track records used to instantiate claim C6: one video track and one
Japanese audio track. -/
def infoJpn : List MkvInfoTrack :=
  [⟨0, "video", some "eng", "V"⟩, ⟨1, "audio", some "jpn", "A"⟩]

/-- Selector entry used in the claim C6 scenario: filter by audio type and
Japanese language, ordinal 0. -/
def entryJpn : TrackEntry := ⟨0, "out.aac", some "audio", some "jpn"⟩

/-- Claim C6: a filtered selector resolves to the `track_id` of the
ordinal-th record of the filtered set when that set is long enough, fails
with `noMatchingTrack` when the filtered set is empty, fails with
`ambiguousSelector` when the non-empty filtered set does not reach the
ordinal; an audio/jpn filter against a set with exactly one match returns
that track's id. -/
theorem selector_filter_resolution :
    (∀ (tracks : List MkvInfoTrack) (e : TrackEntry),
      e.track_type.isSome ∨ e.language.isSome →
      (∀ t, (get_tracks tracks e.track_type e.language)[e.id]? = some t →
        resolveTrackEntry tracks e = .ok t.track_id) ∧
      (get_tracks tracks e.track_type e.language = [] →
        resolveTrackEntry tracks e = .error .noMatchingTrack) ∧
      (get_tracks tracks e.track_type e.language ≠ [] →
        (get_tracks tracks e.track_type e.language).length ≤ e.id →
        resolveTrackEntry tracks e = .error .ambiguousSelector)) ∧
    resolveTrackEntry infoJpn entryJpn = .ok 1 ∧
    resolveTrackEntry [⟨0, "video", some "eng", "V"⟩] entryJpn =
      .error .noMatchingTrack := by
  refine ⟨?_, by rfl, by rfl⟩
  intro tracks e he
  refine ⟨?_, ?_, ?_⟩
  · intro t ht
    simp [resolveTrackEntry, he, ht]
  · intro hempty
    simp [resolveTrackEntry, he, hempty]
  · intro hne hlen
    have hnone : (get_tracks tracks e.track_type e.language)[e.id]? = none :=
      List.getElem?_eq_none hlen
    simp [resolveTrackEntry, he, hnone, hne]

/-- Witness for claim C6: the audio/jpn filter over the two-track set has
the single matching record at ordinal 0 and resolves to its id 1. -/
theorem selector_filter_resolution_witness :
    resolveTrackEntry infoJpn entryJpn = Except.ok 1 :=
  (selector_filter_resolution.1 infoJpn entryJpn (Or.inl rfl)).1
    ⟨1, "audio", some "jpn", "A"⟩ (by rfl)

/-- Validity of one declared track for the merge-side loop: the declared
number indexes the identify records and the record's type is one of the
four structural keys. -/
def validDecl (info : List InfoTrack) (u : MkvSourceTrack) : Prop :=
  ∃ it, info[u.track]? = some it ∧
    (it.type = "video" ∨ it.type = "audio" ∨ it.type = "subtitles" ∨ it.type = "buttons")

lemma collectTracks_error_first (info : List InfoTrack) (src : String) :
    ∀ (pre : List MkvSourceTrack) (t : MkvSourceTrack) (post : List MkvSourceTrack)
      (tc : TrackCount) (cmd : List String),
      (∀ u ∈ pre, validDecl info u) → info[t.track]? = none →
      collectTracks info src (pre ++ t :: post) tc cmd = .error .indexError := by
  intro pre
  induction pre with
  | nil =>
    intro t post tc cmd _ ht
    simp [collectTracks, ht]
  | cons u rest ih =>
    intro t post tc cmd hvalid ht
    obtain ⟨it, hit, htype⟩ := hvalid u (by simp)
    have hpush : ∃ tc2, TrackCount.push tc it.type u.track = some tc2 := by
      rcases htype with h | h | h | h
      · exact ⟨{ tc with video := tc.video ++ [u.track] }, by simp [TrackCount.push, h]⟩
      · exact ⟨{ tc with audio := tc.audio ++ [u.track] }, by simp [TrackCount.push, h]⟩
      · exact ⟨{ tc with subtitles := tc.subtitles ++ [u.track] },
          by simp [TrackCount.push, h]⟩
      · exact ⟨{ tc with buttons := tc.buttons ++ [u.track] }, by simp [TrackCount.push, h]⟩
    obtain ⟨tc2, hp⟩ := hpush
    simp only [List.cons_append, collectTracks, hit, hp]
    exact ih t post tc2 _ (fun v hv => hvalid v (by simp [hv])) ht

/-- Source on which claim C7 fails: a single identify record but a
declared track number 7. -/
def badIdSource : MkvSource :=
  { source_file := "b.mkv", options := [], tracks := [⟨7, []⟩],
    info_tracks := [⟨0, "video", none, "V"⟩] }

/-- Claim C7 at its failing input (code bug): declaration is never
validated (`add_track` always appends), and raw-id selector 7 against a
one-track source does fail only at option-emission time — but with the
anonymous `indexError`, not with an error naming the missing track and the
source: `self.info.tracks[7]` raises IndexError, which the
`except box.BoxKeyError` clause cannot catch, so the exit-60 message
("Source ... does not contain track number 7!") that the claim describes
is dead code for this input. -/
theorem raw_id_uncaught_index_error :
    (∀ (s2 : MkvSource) (u : MkvSourceTrack), (s2.add_track u).tracks = s2.tracks ++ [u]) ∧
    badIdSource.generate_options "/cwd" = .error MkvError.indexError :=
  ⟨fun _ _ => rfl, rfl⟩

/-- Source fragments of the claim C3/C8 scenario job, in source order. -/
def fragsAB : List (List String) :=
  [["--video-tracks", "0", "--audio-tracks", "2", "--no-subtitles", "--no-buttons",
    "(", "/cwd/test1.mkv", ")"],
   ["--no-video", "--audio-tracks", "1,3", "--no-subtitles", "--no-buttons",
    "(", "/cwd/test2.mkv", ")"]]

/-- Claim C8: the generated merge command is, in fixed order, the
executable, `--output` and the output file, the global options, the source
fragments in declaration order, the attachment fragments in declaration
order, and `--track-order` with the comma-joined order as the final two
tokens; within each source fragment the type directives and scalar options
precede the grouped source path `(` ... `)`. -/
theorem generate_command_layout (cwd : String) (m : MkvMerge) (frags : List (List String))
    (h : mapExcept (MkvSource.generate_options cwd) m.sources = .ok frags) :
    m.generate_command cwd = .ok (
      [m.mkvmerge_path] ++ ["--output", pathAbsolute cwd m.output]
      ++ globalOptionTokens m.global_options
      ++ frags.flatten
      ++ (m.attachments.map (MkvAttachment.generate_options cwd)).flatten
      ++ ["--track-order", String.intercalate "," m.track_order]) ∧
    (∀ (s : MkvSource) (out : List String), MkvSource.generate_options cwd s = .ok out →
      out = (claimTypeDirective s "video" ++ claimTypeDirective s "audio" ++
          claimTypeDirective s "subtitles" ++ claimTypeDirective s "buttons" ++
          scalarOptionTokens s.options ++ perTrackTokens s.tracks) ++
        ["(", pathAbsolute cwd s.source_file, ")"]) := by
  constructor
  · simp [MkvMerge.generate_command, h, bind, Except.bind, pure, Except.pure,
      List.append_assoc]
  · intro s out hout
    rw [generate_options_ok_decomp cwd s out hout]
    simp [List.append_assoc]

/-- Witness for claim C8 at the two-source override job: its fragments
compute to `fragsAB` and the command has the claimed layout. -/
theorem generate_command_layout_witness :
    (mergeABOverride.generate_command "/cwd" = .ok (
      ["/usr/bin/mkvmerge"] ++ ["--output", pathAbsolute "/cwd" mergeABOverride.output]
      ++ globalOptionTokens mergeABOverride.global_options
      ++ fragsAB.flatten
      ++ (mergeABOverride.attachments.map (MkvAttachment.generate_options "/cwd")).flatten
      ++ ["--track-order", String.intercalate "," mergeABOverride.track_order])) ∧
    (∀ (s : MkvSource) (out : List String), MkvSource.generate_options "/cwd" s = .ok out →
      out = (claimTypeDirective s "video" ++ claimTypeDirective s "audio" ++
          claimTypeDirective s "subtitles" ++ claimTypeDirective s "buttons" ++
          scalarOptionTokens s.options ++ perTrackTokens s.tracks) ++
        ["(", pathAbsolute "/cwd" s.source_file, ")"]) :=
  generate_command_layout "/cwd" mergeABOverride fragsAB (by rfl)

/-- Extract job used to instantiate claim C9: a timestamps entry, a
chapters entry and a tags entry. -/
def extractX : Mkvextract :=
  { mkvextract_path := "/usr/bin/mkvextract"
    data := some
      { source := "in.mkv"
        modes := [ExtractMode.timestamps [(2, "ts.txt")], ExtractMode.chapters "ch.xml",
                  ExtractMode.tags "tags.xml"] }
    infoTracks := [] }

/-- Claim C9: with loaded data the extract command always starts with the
executable path and the source file, then each mode's tokens in iteration
order; the mode stored under the `timestamps` key is emitted under the
distinct `timestamps_v2` label, so `{id: 2, filename: "ts.txt"}` yields the
tokens `timestamps_v2` and `2:ts.txt`; `chapters`/`tags` emit their label
and the single destination filename. -/
theorem extract_command_layout (x : Mkvextract) (d : ExtractData)
    (hd : x.data = some d) (toks : List (List String))
    (h : mapExcept (modeTokens x.infoTracks) d.modes = .ok toks) :
    x.generate_command = some (.ok (x.mkvextract_path :: d.source :: toks.flatten)) ∧
    (∀ es, modeTokens x.infoTracks (ExtractMode.timestamps es) =
      .ok ("timestamps_v2" :: es.map (fun e => toString e.1 ++ ":" ++ e.2))) ∧
    (∀ es, (ExtractMode.timestamps es).key = "timestamps") ∧
    (∀ f, modeTokens x.infoTracks (ExtractMode.chapters f) = .ok ["chapters", f]) ∧
    (∀ f, modeTokens x.infoTracks (ExtractMode.tags f) = .ok ["tags", f]) ∧
    modeTokens x.infoTracks (ExtractMode.timestamps [(2, "ts.txt")]) =
      .ok ["timestamps_v2", "2:ts.txt"] := by
  refine ⟨?_, fun es => rfl, fun es => rfl, fun f => rfl, fun f => rfl, rfl⟩
  simp [Mkvextract.generate_command, hd, h, bind, Except.bind, pure, Except.pure]

/-- Witness for claim C9 at the concrete extract job: the command is the
executable, the source, and the three modes' tokens. -/
theorem extract_command_layout_witness :
    extractX.generate_command = some (.ok ("/usr/bin/mkvextract" :: "in.mkv" ::
      ([["timestamps_v2", "2:ts.txt"], ["chapters", "ch.xml"],
        ["tags", "tags.xml"]] : List (List String)).flatten)) ∧
    (∀ es, modeTokens extractX.infoTracks (ExtractMode.timestamps es) =
      .ok ("timestamps_v2" :: es.map (fun e => toString e.1 ++ ":" ++ e.2))) ∧
    (∀ es, (ExtractMode.timestamps es).key = "timestamps") ∧
    (∀ f, modeTokens extractX.infoTracks (ExtractMode.chapters f) = .ok ["chapters", f]) ∧
    (∀ f, modeTokens extractX.infoTracks (ExtractMode.tags f) = .ok ["tags", f]) ∧
    modeTokens extractX.infoTracks (ExtractMode.timestamps [(2, "ts.txt")]) =
      .ok ["timestamps_v2", "2:ts.txt"] :=
  extract_command_layout extractX
    { source := "in.mkv"
      modes := [ExtractMode.timestamps [(2, "ts.txt")], ExtractMode.chapters "ch.xml",
                ExtractMode.tags "tags.xml"] }
    rfl [["timestamps_v2", "2:ts.txt"], ["chapters", "ch.xml"], ["tags", "tags.xml"]]
    (by rfl)

/-- Claim C10: loading a merge job from a validated configuration sets the
track-order override to the tracks-array declaration order, one
`source:track` entry per element; hence with a non-empty tracks array the
derived order is never consulted and `track_order` returns exactly the
tracks-array order. -/
theorem load_sets_track_order_override (m : MkvMerge) (cfg : MergeConfig) (m2 : MkvMerge)
    (h : m.load_from_object cfg = some m2) :
    m2.track_order_override =
      cfg.tracks.map (fun t => toString t.source ++ ":" ++ toString t.track) ∧
    (cfg.tracks ≠ [] →
      m2.track_order =
        cfg.tracks.map (fun t => toString t.source ++ ":" ++ toString t.track)) := by
  simp only [MkvMerge.load_from_object, bind, Option.bind, pure] at h
  cases haux : addConfigTracks (cfg.sources.map (fun cs =>
      { source_file := cs.filename, options := cs.options, tracks := [],
        info_tracks := cs.info : MkvSource })) cfg.tracks with
  | none =>
    rw [haux] at h
    exact Option.noConfusion h
  | some srcs =>
    rw [haux] at h
    simp only [Option.some.injEq] at h
    subst h
    refine ⟨rfl, ?_⟩
    intro hne
    have hmap : cfg.tracks.map (fun t => toString t.source ++ ":" ++ toString t.track)
        ≠ [] := by
      simpa using hne
    simp [MkvMerge.track_order, hmap]

/-- Configuration used to instantiate claim C10: one source, two tracks. -/
def cfgC10 : MergeConfig :=
  { sources := [⟨"test1.mkv", [], [⟨0, "video", none, "V"⟩, ⟨1, "audio", some "jpn", "A"⟩]⟩]
    tracks := [⟨0, 0, []⟩, ⟨0, 1, []⟩]
    output_file := "o.mkv", options := [], attachments := [] }

/-- Source state the C10 configuration loads into. -/
def loadedSrcC10 : MkvSource :=
  { source_file := "test1.mkv", options := [], tracks := [⟨0, []⟩, ⟨1, []⟩],
    info_tracks := [⟨0, "video", none, "V"⟩, ⟨1, "audio", some "jpn", "A"⟩] }

/-- Merge job state the C10 configuration loads into. -/
def loadedC10 : MkvMerge :=
  { sources := [loadedSrcC10], attachments := [], track_order_override := ["0:0", "0:1"]
    output := "o.mkv", mkvmerge_path := "/usr/bin/mkvmerge", global_options := [] }

/-- Witness for claim C10: loading the concrete configuration sets the
override to the tracks-array order, which `track_order` returns. -/
theorem load_sets_track_order_override_witness :
    loadedC10.track_order_override =
      cfgC10.tracks.map (fun t => toString t.source ++ ":" ++ toString t.track) ∧
    (cfgC10.tracks ≠ [] →
      loadedC10.track_order =
        cfgC10.tracks.map (fun t => toString t.source ++ ":" ++ toString t.track)) :=
  load_sets_track_order_override
    { sources := [], attachments := [], track_order_override := [],
      output := "", mkvmerge_path := "/usr/bin/mkvmerge", global_options := [] }
    cfgC10 loadedC10 (by rfl)

end Sisyphus
